import Mathlib

/-!
# gojaguar/logger: a verbosity-gated logging facade

Shallow embedding of `logger.go`, `options.go`, `driver.go` and
`cmd/example/main.go`, together with the pieces of the Go standard library
they call (`runtime.Caller`, `filepath.Base`, `fmt.Sprintf`, `log.Logger`).

Effects are made explicit:
* a severity method returns the list of `Println` calls it makes on drivers;
* a `Println` on the standard driver returns its outcome: the single `Write` it performs,
  or the panic of a nil writer;
* the call stack and the wall clock are inputs.
-/

namespace GoLogger

/-! ## Go runtime and standard library -/

/-- One active call on the goroutine stack: the source file and line it is executing. -/
structure Frame where
  file : String
  line : Nat
deriving DecidableEq, Repr

/-- Go `runtime.Caller(skip)`: file, line and ok of the frame `skip` levels above the
function calling it (`stack` starts with that function's own frame). The program counter,
which the package discards, is left out. -/
def runtimeCaller (skip : Nat) (stack : List Frame) : String × Nat × Bool :=
  match stack.get? skip with
  | some fr => (fr.file, fr.line, true)
  | none => ("", 0, false)

/-- Strip trailing slashes: the first loop of `filepath.Base`. -/
def stripTrailingSlashes (path : List Char) : List Char :=
  (path.reverse.dropWhile (fun c => c == '/')).reverse

/-- Characters after the last slash: the second loop of `filepath.Base`
(the whole path when it has no slash). -/
def lastElement (path : List Char) : List Char :=
  (path.reverse.takeWhile (fun c => c != '/')).reverse

/-- Go `filepath.Base` (Unix: separator `/`, empty volume name). -/
def filepathBase (path : String) : String :=
  if path = "" then "."
  else
    let p := lastElement (stripTrailingSlashes path.data)
    if p = [] then "/" else String.mk p

/-- Go `fmt.Sprintf("[ %s:%d ] [%s] %s", file, line, tag, message)`. -/
def sprintfLine (file : String) (line : Nat) (tag message : String) : String :=
  "[ " ++ file ++ ":" ++ toString line ++ " ] [" ++ tag ++ "] " ++ message

/-- Go `fmt.Sprintf("[%s] ", p)`. -/
def sprintfPrefix (p : String) : String :=
  "[" ++ p ++ "] "

/-! ### Package `log` -/

/-- Destination of a standard logger: an `io.Writer` value, which may be the nil interface. -/
inductive Writer where
  | nil
  | stdout
  | other (id : Nat)
deriving DecidableEq, Repr

/-- One `Write` call on an `io.Writer`. -/
structure Write where
  out : Writer
  data : String
deriving DecidableEq, Repr

/-- Outcome of one `Println` call on a driver: the `Write` call it makes on its destination,
a run-time panic, or, for a driver that is not the standard one, an effect this package
does not determine. -/
inductive Outcome where
  | wrote (w : Write)
  | panic
  | foreign
deriving DecidableEq, Repr

/-- Flag bits of package `log`, `1 << iota` in declaration order. -/
def Ldate : Nat := 1
def Ltime : Nat := 2
def Lmicroseconds : Nat := 4
def Llongfile : Nat := 8
def Lshortfile : Nat := 16
def LUTC : Nat := 32
def Lmsgprefix : Nat := 64

/-- Broken-down wall clock reading. -/
structure Clock where
  year : Nat
  month : Nat
  day : Nat
  hour : Nat
  min : Nat
  sec : Nat
  nsec : Nat
deriving DecidableEq, Repr

/-- Go `time.Time`: an instant, read in its own location and in UTC. -/
structure Time where
  wall : Clock
  utc : Clock
deriving DecidableEq, Repr

/-- Go `t.UTC()`. -/
def Time.UTC (t : Time) : Time := { wall := t.utc, utc := t.utc }

/-- Go `flag&mask != 0` on the two's complement bits of the `int` flag. -/
def flagHas (flag : Int) (mask : Nat) : Bool :=
  Int.land flag (mask : Int) != 0

/-- Decimal digit character of `d < 10`. -/
def digitChar (d : Nat) : Char := Char.ofNat (48 + d)

/-- Loop of `log.itoa`: digits are produced from the least significant one while
`i >= 10 || wid > 1`; the 20-byte buffer of the source bounds the iterations. -/
def itoaLoop : Nat → Nat → Int → List Char → List Char
  | 0, i, _, acc => digitChar (i % 10) :: acc
  | fuel + 1, i, wid, acc =>
    if i ≥ 10 ∨ wid > 1 then itoaLoop fuel (i / 10) (wid - 1) (digitChar (i % 10) :: acc)
    else digitChar i :: acc

/-- Go `log.itoa`: fixed-width decimal, zero padded; a negative width avoids padding. -/
def itoa (i : Nat) (wid : Int) : String := String.mk (itoaLoop 19 i wid [])

/-- Short file name of `Lshortfile`: the text after the last slash found at an index above 0. -/
def shortFile (file : String) : String :=
  match file.data with
  | [] => file
  | c :: rest => if rest.contains '/' then String.mk (lastElement rest) else String.mk (c :: rest)

/-- Go `log.formatHeader`. -/
def formatHeader (pfx : String) (flag : Int) (t : Time) (file : String) (line : Nat) : String :=
  let b0 := if flagHas flag Lmsgprefix then "" else pfx
  let b1 :=
    if flagHas flag (Ldate ||| Ltime ||| Lmicroseconds) then
      let t := if flagHas flag LUTC then t.UTC else t
      let d :=
        if flagHas flag Ldate then
          itoa t.wall.year 4 ++ "/" ++ itoa t.wall.month 2 ++ "/" ++ itoa t.wall.day 2 ++ " "
        else ""
      let c :=
        if flagHas flag (Ltime ||| Lmicroseconds) then
          itoa t.wall.hour 2 ++ ":" ++ itoa t.wall.min 2 ++ ":" ++ itoa t.wall.sec 2
            ++ (if flagHas flag Lmicroseconds then "." ++ itoa (t.wall.nsec / 1000) 6 else "")
            ++ " "
        else ""
      d ++ c
    else ""
  let b2 :=
    if flagHas flag (Lshortfile ||| Llongfile) then
      (if flagHas flag Lshortfile then shortFile file else file) ++ ":" ++ itoa line (-1) ++ ": "
    else ""
  let b3 := if flagHas flag Lmsgprefix then pfx else ""
  b0 ++ b1 ++ b2 ++ b3

/-- Go `log.Logger`: destination, line prefix and flags, as given to `log.New`. -/
structure StdLogger where
  out : Writer
  linePrefix : String
  flag : Int
deriving DecidableEq, Repr

/-- Go `log.New`. -/
def logNew (w : Writer) (pfx : String) (flag : Int) : StdLogger :=
  { out := w, linePrefix := pfx, flag := flag }

/-- Go `(*log.Logger).Output` at the frame `caller` resolved by its call depth:
header, then the text, then a newline unless the text already ends in one, handed to
`l.out.Write`; calling `Write` on the nil interface panics. -/
def StdLogger.Output (l : StdLogger) (now : Time) (caller : Frame) (s : String) : Outcome :=
  let hdr := formatHeader l.linePrefix l.flag now caller.file caller.line
  let nl := if s.data.getLast? = some '\n' then "" else "\n"
  if l.out = Writer.nil then Outcome.panic
  else Outcome.wrote { out := l.out, data := hdr ++ s ++ nl }

/-- Go `(*log.Logger).Println` with one string operand: `Output(2, fmt.Sprintln(v))`. -/
def StdLogger.Println (l : StdLogger) (now : Time) (caller : Frame) (v : String) : Outcome :=
  l.Output now caller (v ++ "\n")

/-! ## driver.go -/

/-- Struct `DriverStd`: uses the standard `log.Logger` as log printer. -/
structure DriverStd where
  Logger : StdLogger
deriving DecidableEq, Repr

/-- Value of the `Driver` interface: the standard driver, or some other implementation. -/
inductive Driver where
  | std (d : DriverStd)
  | custom (id : Nat)
deriving DecidableEq, Repr

/-- Function `newStdDriver`: initializes a `DriverStd` using `log.New`. -/
def newStdDriver (w : Writer) (pfx : String) (flag : Int) : DriverStd :=
  let l := logNew w pfx flag
  { Logger := l }

/-! ## logger.go -/

/-- Verbosity levels, constants of type `Verbosity` (`uint8`). -/
def VerbosityError : Nat := 1
def VerbosityWarn : Nat := 2
def VerbosityInfo : Nat := 3
def VerbosityDebug : Nat := 4

/-- The `logger` struct; `Verbosity` is a `uint8`, only ever compared. -/
structure logger where
  Verbosity : Nat
  Prefix : String
  Driver : Driver
deriving DecidableEq, Repr

/-- One `Println` call made on a driver, with its single string operand. -/
structure PrintlnCall where
  driver : Driver
  v : String
deriving DecidableEq, Repr

/-- Path of `logger.go` as recorded by the compiler. -/
def loggerGo : String := "github.com/gojaguar/logger/logger.go"

/-- Method `log`; `stack` is the stack of its caller (a severity method), top frame first. -/
def logger.log (l : logger) (stack : List Frame) (tag : String) (message : String) :
    List PrintlnCall :=
  match runtimeCaller 2 (Frame.mk loggerGo 79 :: stack) with
  | (fn, line, _) => [{ driver := l.Driver, v := sprintfLine (filepathBase fn) line tag message }]

/-- Method `Debug`; `stack` is the stack of the code calling it, top frame first. -/
def logger.Debug (l : logger) (stack : List Frame) (message : String) : List PrintlnCall :=
  if l.Verbosity < VerbosityDebug then []
  else l.log (Frame.mk loggerGo 54 :: stack) "DEBUG" message

/-- Method `Info`. -/
def logger.Info (l : logger) (stack : List Frame) (message : String) : List PrintlnCall :=
  if l.Verbosity < VerbosityInfo then []
  else l.log (Frame.mk loggerGo 61 :: stack) "INFO" message

/-- Method `Warn`. -/
def logger.Warn (l : logger) (stack : List Frame) (message : String) : List PrintlnCall :=
  if l.Verbosity < VerbosityWarn then []
  else l.log (Frame.mk loggerGo 68 :: stack) "WARNING" message

/-- Method `Error`. -/
def logger.Error (l : logger) (stack : List Frame) (message : String) : List PrintlnCall :=
  if l.Verbosity < VerbosityError then []
  else l.log (Frame.mk loggerGo 75 :: stack) "ERROR" message

/-! ## options.go -/

/-- Type `Option` of options.go, `func(logger) logger`; renamed, `Option` being a Lean type. -/
abbrev LoggerOption := logger → logger

/-- Function `WithStdDriver`: the option replacing the driver by a standard one on `writer`. -/
def WithStdDriver (writer : Writer) (flag : Int) : LoggerOption :=
  fun l => { l with Driver := Driver.std (newStdDriver writer (sprintfPrefix l.Prefix) flag) }

/-- The `for _, opt := range opts` loop of `NewLogger`. -/
def applyOpts : List LoggerOption → logger → logger
  | [], l => l
  | opt :: rest, l => applyOpts rest (opt l)

/-- The configuration `NewLogger` starts from. -/
def defaultLogger : logger :=
  { Verbosity := VerbosityDebug
    Driver := Driver.std (newStdDriver Writer.stdout "[LOG] " (Ldate ||| Ltime ||| LUTC : Nat))
    Prefix := "LOG" }

/-- Function `NewLogger`: the default configuration, then each option in turn. -/
def NewLogger (opts : List LoggerOption) : logger :=
  applyOpts opts defaultLogger

/-! ## cmd/example/main.go -/

/-- Path of the example program's `main.go`, in the directory `dir` (`.../cmd/example`). -/
def exampleMainGo (dir : String) : String := dir ++ "/" ++ "main.go"

/-- Function `main` of the example: the `Println` calls it makes, in order. -/
def exampleMain (dir : String) : List PrintlnCall :=
  let log := NewLogger []
  log.Debug [Frame.mk (exampleMainGo dir) 8] "Debug message"
    ++ log.Info [Frame.mk (exampleMainGo dir) 9] "Info message"
    ++ log.Warn [Frame.mk (exampleMainGo dir) 10] "Warn message"
    ++ log.Error [Frame.mk (exampleMainGo dir) 11] "Error message"

/-! ## Vocabulary of the properties -/

/-- The four severity methods of the `Logger` interface. -/
inductive Severity where
  | Debug
  | Info
  | Warn
  | Error
deriving DecidableEq, Repr

/-- Calling the severity method `S`. -/
def logger.call (l : logger) (S : Severity) (stack : List Frame) (message : String) :
    List PrintlnCall :=
  match S with
  | Severity.Debug => l.Debug stack message
  | Severity.Info => l.Info stack message
  | Severity.Warn => l.Warn stack message
  | Severity.Error => l.Error stack message

/-- Level a severity requires: the constant its method compares the threshold with. -/
def requiredLevel : Severity → Nat
  | Severity.Debug => VerbosityDebug
  | Severity.Info => VerbosityInfo
  | Severity.Warn => VerbosityWarn
  | Severity.Error => VerbosityError

/-- Tag a severity method passes to `log`. -/
def Severity.tag : Severity → String
  | Severity.Debug => "DEBUG"
  | Severity.Info => "INFO"
  | Severity.Warn => "WARNING"
  | Severity.Error => "ERROR"

/-- Line of `logger.go` at which a severity method calls `log`. -/
def Severity.callLine : Severity → Nat
  | Severity.Debug => 54
  | Severity.Info => 61
  | Severity.Warn => 68
  | Severity.Error => 75

/-- A call at severity `S` under a logger `l` emits: it makes some call on a driver. -/
def emits (l : logger) (S : Severity) (stack : List Frame) (message : String) : Prop :=
  l.call S stack message ≠ []

instance (l : logger) (S : Severity) (stack : List Frame) (message : String) :
    Decidable (emits l S stack message) := by
  unfold emits; infer_instance

/-- Configuration as a fold, in the words of the specification: a left fold of the
supplied functions over an initial configuration. -/
def configFold (d : logger) (opts : List LoggerOption) : logger :=
  opts.foldl (fun c o => o c) d

/-- Outcome of one recorded `Println` call made by `log` (line 81 of `logger.go`) at wall
clock `now`: that of the promoted `log.Logger` method for the standard driver; the effect
of another driver is not determined by the package. -/
def PrintlnCall.perform (now : Time) (c : PrintlnCall) : Outcome :=
  match c.driver with
  | Driver.std d => d.Logger.Println now (Frame.mk loggerGo 81) c.v
  | Driver.custom _ => Outcome.foreign

/-- Writer and flags of the driver that a chain of `WithStdDriver` options leaves: those of
the last option, or those of the default driver when the chain is empty. -/
def finalSink (ws : List (Writer × Int)) : Writer × Int :=
  match ws.getLast? with
  | some a => a
  | none => (Writer.stdout, ((Ldate ||| Ltime ||| LUTC : Nat) : Int))

/-- Date segment `yyyy/mm/dd` of a standard log line. -/
def dateStamp (c : Clock) : String :=
  itoa c.year 4 ++ "/" ++ itoa c.month 2 ++ "/" ++ itoa c.day 2

/-- Time segment `hh:mm:ss` of a standard log line. -/
def timeStamp (c : Clock) : String :=
  itoa c.hour 2 ++ ":" ++ itoa c.min 2 ++ ":" ++ itoa c.sec 2

/-- A wall clock reading used in examples: 2021/04/20 00:32:27 UTC, 21:32:27 the day before
in the local zone. -/
def sampleTime : Time :=
  { wall := { year := 2021, month := 4, day := 19, hour := 21, min := 32, sec := 27, nsec := 0 }
    utc := { year := 2021, month := 4, day := 20, hour := 0, min := 32, sec := 27, nsec := 0 } }

/-! ## Lemmas -/

theorem call_eq_log (l : logger) (S : Severity) (stack : List Frame) (message : String) :
    l.call S stack message =
      if requiredLevel S ≤ l.Verbosity then
        l.log (Frame.mk loggerGo S.callLine :: stack) S.tag message
      else [] := by
  cases S <;>
    simp only [logger.call, logger.Debug, logger.Info, logger.Warn, logger.Error,
      requiredLevel, Severity.tag, Severity.callLine] <;>
    split_ifs <;> first | rfl | omega

theorem log_eq (l : logger) (inner fr : Frame) (rest : List Frame) (tag message : String) :
    l.log (inner :: fr :: rest) tag message =
      [{ driver := l.Driver, v := sprintfLine (filepathBase fr.file) fr.line tag message }] := by
  rfl

theorem log_nil (l : logger) (inner : Frame) (tag message : String) :
    l.log [inner] tag message =
      [{ driver := l.Driver, v := sprintfLine (filepathBase "") 0 tag message }] := by
  rfl

theorem call_cons (l : logger) (S : Severity) (fr : Frame) (rest : List Frame)
    (message : String) :
    l.call S (fr :: rest) message =
      if requiredLevel S ≤ l.Verbosity then
        [{ driver := l.Driver, v := sprintfLine (filepathBase fr.file) fr.line S.tag message }]
      else [] := by
  rw [call_eq_log, log_eq]

theorem map_driver_call (l : logger) (S : Severity) (stack : List Frame) (message : String) :
    (l.call S stack message).map PrintlnCall.driver =
      if requiredLevel S ≤ l.Verbosity then [l.Driver] else [] := by
  rw [call_eq_log]
  split_ifs
  · cases stack <;> rfl
  · rfl

theorem stripTrailingSlashes_join (dir name : List Char) (h1 : name ≠ [])
    (h2 : '/' ∉ name) :
    stripTrailingSlashes (dir ++ '/' :: name) = dir ++ '/' :: name := by
  unfold stripTrailingSlashes
  have hne : (dir ++ '/' :: name).reverse ≠ [] := by simp
  obtain ⟨c, t, hct⟩ := List.exists_cons_of_ne_nil (List.reverse_ne_nil_iff.mpr h1)
  have hc : c ∈ name := by
    have : c ∈ name.reverse := by rw [hct]; simp
    simpa using this
  have hcs : c ≠ '/' := fun h => h2 (h ▸ hc)
  have hrev : (dir ++ '/' :: name).reverse = c :: (t ++ '/' :: dir.reverse) := by
    simp [List.reverse_append, hct]
  rw [hrev, List.dropWhile_cons_of_neg (by simpa using hcs), ← hrev, List.reverse_reverse]

theorem lastElement_join (dir name : List Char) (h2 : '/' ∉ name) :
    lastElement (dir ++ '/' :: name) = name := by
  unfold lastElement
  have hrev : (dir ++ '/' :: name).reverse = name.reverse ++ '/' :: dir.reverse := by
    simp [List.reverse_append]
  have hall : ∀ a ∈ name.reverse, (fun c : Char => c != '/') a = true := by
    intro a ha
    have : a ≠ '/' := fun h => h2 (by simpa [h] using ha)
    simpa using this
  rw [hrev, List.takeWhile_append_of_pos hall]
  simp

/-- Go `filepath.Base` strips every directory component in front of a file name. -/
theorem filepathBase_join (dir name : String) (h1 : name ≠ "") (h2 : '/' ∉ name.data) :
    filepathBase (dir ++ "/" ++ name) = name := by
  have hn : name.data ≠ [] := fun h => h1 (String.ext h)
  have hd : (dir ++ "/" ++ name).data = dir.data ++ '/' :: name.data := by
    simp [String.data_append]
  have hne : dir ++ "/" ++ name ≠ "" := by
    intro h
    have := congrArg String.data h
    rw [hd] at this
    simp at this
  unfold filepathBase
  rw [if_neg hne]
  simp only [hd, stripTrailingSlashes_join _ _ hn h2, lastElement_join _ _ h2, if_neg hn]

/-- The text `Println` hands to `Output` ends in a newline. -/
theorem getLast_sprintln (v : String) : (v ++ "\n").data.getLast? = some '\n' := by
  simp [String.data_append]

theorem applyOpts_eq_foldl (opts : List LoggerOption) (l : logger) :
    applyOpts opts l = opts.foldl (fun c o => o c) l := by
  induction opts generalizing l with
  | nil => rfl
  | cons o rest ih => simp only [applyOpts, List.foldl_cons, ih]

/-- What a chain of `WithStdDriver` options does to any starting configuration. -/
theorem applyOpts_withStdDriver (ws : List (Writer × Int)) (l : logger) :
    (applyOpts (ws.map (fun a => WithStdDriver a.1 a.2)) l).Verbosity = l.Verbosity ∧
      (applyOpts (ws.map (fun a => WithStdDriver a.1 a.2)) l).Prefix = l.Prefix ∧
      (applyOpts (ws.map (fun a => WithStdDriver a.1 a.2)) l).Driver =
        match ws.getLast? with
        | some a => Driver.std (newStdDriver a.1 (sprintfPrefix l.Prefix) a.2)
        | none => l.Driver := by
  induction ws generalizing l with
  | nil => exact ⟨rfl, rfl, rfl⟩
  | cons a rest ih =>
    obtain ⟨hv, hp, hd⟩ := ih (WithStdDriver a.1 a.2 l)
    simp only [List.map_cons, applyOpts]
    refine ⟨hv, hp, ?_⟩
    rw [hd]
    cases rest with
    | nil => rfl
    | cons b rest2 =>
      rw [List.getLast?_cons_cons]
      cases h : (b :: rest2).getLast? with
      | none => simp at h
      | some c => rfl

/-- The default driver writes the prefix, then the UTC date and time, then the text. -/
theorem println_default (now : Time) (caller : Frame) (v : String) :
    (newStdDriver Writer.stdout "[LOG] " (Ldate ||| Ltime ||| LUTC : Nat)).Logger.Println
        now caller v =
      Outcome.wrote { out := Writer.stdout
                      data := "[LOG] " ++ dateStamp now.utc ++ " " ++ timeStamp now.utc ++ " "
                        ++ v ++ "\n" } := by
  have e0 : Writer.stdout ≠ Writer.nil := by decide
  have e1 : flagHas ((Ldate ||| Ltime ||| LUTC : Nat) : Int) Lmsgprefix = false := by decide
  have e2 : flagHas ((Ldate ||| Ltime ||| LUTC : Nat) : Int)
      (Ldate ||| Ltime ||| Lmicroseconds) = true := by decide
  have e3 : flagHas ((Ldate ||| Ltime ||| LUTC : Nat) : Int) LUTC = true := by decide
  have e4 : flagHas ((Ldate ||| Ltime ||| LUTC : Nat) : Int) Ldate = true := by decide
  have e5 : flagHas ((Ldate ||| Ltime ||| LUTC : Nat) : Int) (Ltime ||| Lmicroseconds) = true := by
    decide
  have e6 : flagHas ((Ldate ||| Ltime ||| LUTC : Nat) : Int) Lmicroseconds = false := by decide
  have e7 : flagHas ((Ldate ||| Ltime ||| LUTC : Nat) : Int) (Lshortfile ||| Llongfile) = false := by
    decide
  simp only [newStdDriver, logNew, StdLogger.Println, StdLogger.Output, formatHeader,
    getLast_sprintln, e0, e1, e2, e3, e4, e5, e6, e7, Time.UTC, dateStamp, timeStamp, if_true,
    Bool.false_eq_true, if_false, String.append_empty, String.append_assoc]

/-- Every `Println` of a standard logger either panics, on a nil destination, or is one
write to its destination: header, text and the newline `Sprintln` appended. -/
theorem println_outcome (l : StdLogger) (now : Time) (caller : Frame) (v : String) :
    l.Println now caller v =
      if l.out = Writer.nil then Outcome.panic
      else Outcome.wrote
        { out := l.out
          data := formatHeader l.linePrefix l.flag now caller.file caller.line ++ v ++ "\n" } := by
  simp only [StdLogger.Println, StdLogger.Output, getLast_sprintln, if_true,
    String.append_empty, String.append_assoc]

/-- The string `log` formats is that of the frame on top of the caller's stack. -/
theorem call_eq (l : logger) (S : Severity) (stack : List Frame) (m : String) :
    l.call S stack m =
      if requiredLevel S ≤ l.Verbosity then
        [{ driver := l.Driver
           v := sprintfLine (filepathBase (runtimeCaller 0 stack).1) (runtimeCaller 0 stack).2.1
             S.tag m }]
      else [] := by
  rw [call_eq_log]
  cases stack <;> rfl

theorem call_default (S : Severity) (stack : List Frame) (m : String) :
    ∃ v, (NewLogger []).call S stack m = [{ driver := (NewLogger []).Driver, v := v }] := by
  have hg : requiredLevel S ≤ (NewLogger []).Verbosity := by cases S <;> decide
  rw [call_eq_log, if_pos hg]
  cases stack with
  | nil => exact ⟨_, log_nil _ _ _ _⟩
  | cons fr rest => exact ⟨_, log_eq _ _ _ _ _ _⟩

/-! ## The gate -/

/-- C1: for every threshold and every severity, the severity method makes exactly one
`Println` call, on the logger's own driver, when the required level (Debug 4, Info 3,
Warn 2, Error 1) is at most the threshold, and no call on any driver otherwise; so
`VerbosityError` emits only Error, `VerbosityWarn` Error and Warn, `VerbosityInfo` Error,
Warn and Info, and `VerbosityDebug` all four. -/
theorem gate_exactly_one_call_iff_level_le :
    (requiredLevel Severity.Debug = 4 ∧ requiredLevel Severity.Info = 3 ∧
      requiredLevel Severity.Warn = 2 ∧ requiredLevel Severity.Error = 1) ∧
    (∀ (T : Nat) (p : String) (d : Driver) (S : Severity) (stack : List Frame) (m : String),
      ((logger.mk T p d).call S stack m).map PrintlnCall.driver =
        if requiredLevel S ≤ T then [d] else []) ∧
    (∀ (p : String) (d : Driver) (S : Severity) (stack : List Frame) (m : String),
      (emits (logger.mk VerbosityError p d) S stack m ↔ S = Severity.Error) ∧
      (emits (logger.mk VerbosityWarn p d) S stack m ↔ S = Severity.Error ∨ S = Severity.Warn) ∧
      (emits (logger.mk VerbosityInfo p d) S stack m ↔
        S = Severity.Error ∨ S = Severity.Warn ∨ S = Severity.Info) ∧
      emits (logger.mk VerbosityDebug p d) S stack m) := by
  refine ⟨⟨rfl, rfl, rfl, rfl⟩, ?_, ?_⟩
  · intro T p d S stack m
    exact map_driver_call _ S stack m
  · intro p d S stack m
    have key : ∀ T : Nat, emits (logger.mk T p d) S stack m ↔ requiredLevel S ≤ T := by
      intro T
      unfold emits
      rw [call_eq_log]
      split_ifs with h
      · cases stack <;> simp [h, logger.log, runtimeCaller]
      · simp [h]
    simp only [key]
    cases S <;> simp [requiredLevel, VerbosityError, VerbosityWarn, VerbosityInfo, VerbosityDebug]

/-- C6: the gate is monotone: when the threshold of one logger is at most that of another,
every severity that emits under the first emits under the second. -/
theorem gate_monotone (l1 l2 : logger) (S : Severity) (stack : List Frame) (m : String)
    (hle : l1.Verbosity ≤ l2.Verbosity) (h1 : emits l1 S stack m) : emits l2 S stack m := by
  unfold emits at *
  rw [call_eq_log] at h1 ⊢
  split_ifs at h1 with h
  · rw [if_pos (le_trans h hle)]
    cases stack <;> simp [logger.log, runtimeCaller]
  · exact absurd rfl h1

theorem gate_monotone_witness :
    emits (logger.mk 3 "LOG" (Driver.custom 0)) Severity.Warn [Frame.mk "/srv/agent.go" 42] "x" :=
  gate_monotone (logger.mk 2 "LOG" (Driver.custom 0)) (logger.mk 3 "LOG" (Driver.custom 0))
    Severity.Warn [Frame.mk "/srv/agent.go" 42] "x" (by decide) (by decide)

/-! ## The formatted line -/

/-- C2: when a severity method called from file `fr.file`, line `fr.line`, passes the gate,
the single string it hands to the driver is `[ <base name>:<line> ] [<TAG>] <message>`,
with tags DEBUG, INFO, WARNING and ERROR and the message verbatim at the end. -/
theorem line_handed_to_driver (l : logger) (S : Severity) (fr : Frame) (rest : List Frame)
    (m : String) (hgate : requiredLevel S ≤ l.Verbosity) :
    l.call S (fr :: rest) m =
        [{ driver := l.Driver
           v := "[ " ++ filepathBase fr.file ++ ":" ++ Nat.repr fr.line ++ " ] ["
                  ++ S.tag ++ "] " ++ m }] ∧
      (Severity.Debug.tag = "DEBUG" ∧ Severity.Info.tag = "INFO" ∧
        Severity.Warn.tag = "WARNING" ∧ Severity.Error.tag = "ERROR") := by
  refine ⟨?_, rfl, rfl, rfl, rfl⟩
  rw [call_cons, if_pos hgate]
  rfl

theorem line_handed_to_driver_witness :
    (NewLogger []).call Severity.Warn [Frame.mk "/srv/agent/agent.go" 42] "disk nearly full" =
        [{ driver := (NewLogger []).Driver
           v := "[ agent.go:42 ] [WARNING] disk nearly full" }] ∧
      (Severity.Debug.tag = "DEBUG" ∧ Severity.Info.tag = "INFO" ∧
        Severity.Warn.tag = "WARNING" ∧ Severity.Error.tag = "ERROR") :=
  line_handed_to_driver (NewLogger []) Severity.Warn (Frame.mk "/srv/agent/agent.go" 42) []
    "disk nearly full" (by decide)

/-- C8: when code at line `line` of the file `dir/name` calls a severity method that
passes the gate, `log` resolves the frame two levels above its own (above the frame of
`log` and the frame of the severity method), and the emitted string carries the base name
`name`, every directory component stripped, and that line. -/
theorem call_site_is_callers_base_name (l : logger) (S : Severity) (dir name : String)
    (line : Nat) (rest : List Frame) (m : String)
    (hname : name ≠ "") (hslash : '/' ∉ name.data) (hgate : requiredLevel S ≤ l.Verbosity) :
    runtimeCaller 2
        (Frame.mk loggerGo 79 :: Frame.mk loggerGo S.callLine ::
          Frame.mk (dir ++ "/" ++ name) line :: rest) = (dir ++ "/" ++ name, line, true) ∧
      l.call S (Frame.mk (dir ++ "/" ++ name) line :: rest) m =
        l.log (Frame.mk loggerGo S.callLine :: Frame.mk (dir ++ "/" ++ name) line :: rest)
          S.tag m ∧
      l.call S (Frame.mk (dir ++ "/" ++ name) line :: rest) m =
        [{ driver := l.Driver, v := sprintfLine name line S.tag m }] := by
  refine ⟨rfl, ?_, ?_⟩
  · rw [call_eq_log, if_pos hgate]
  · rw [call_cons, if_pos hgate, filepathBase_join dir name hname hslash]

theorem call_site_is_callers_base_name_witness :
    runtimeCaller 2
        (Frame.mk loggerGo 79 :: Frame.mk loggerGo Severity.Info.callLine ::
          Frame.mk ("/home/dev/app/cmd" ++ "/" ++ "main.go") 15 :: []) =
        ("/home/dev/app/cmd" ++ "/" ++ "main.go", 15, true) ∧
      (NewLogger []).call Severity.Info
          (Frame.mk ("/home/dev/app/cmd" ++ "/" ++ "main.go") 15 :: []) "Hello" =
        (NewLogger []).log
          (Frame.mk loggerGo Severity.Info.callLine ::
            Frame.mk ("/home/dev/app/cmd" ++ "/" ++ "main.go") 15 :: [])
          Severity.Info.tag "Hello" ∧
      (NewLogger []).call Severity.Info
          (Frame.mk ("/home/dev/app/cmd" ++ "/" ++ "main.go") 15 :: []) "Hello" =
        [{ driver := (NewLogger []).Driver, v := "[ main.go:15 ] [INFO] Hello" }] :=
  call_site_is_callers_base_name (NewLogger []) Severity.Info "/home/dev/app/cmd" "main.go" 15 []
    "Hello" (by decide) (by decide) (by decide)

/-! ## Construction and options -/

/-- C3: `NewLogger` without options returns threshold `VerbosityDebug`, prefix `LOG` and the
standard driver on standard output with line prefix `[LOG] ` and flags date, time and UTC;
each severity method called on it makes one `Println` call, which writes one newline
terminated chunk to standard output; the example program makes four calls, in call order. -/
theorem newLogger_no_options :
    NewLogger [] =
        { Verbosity := VerbosityDebug
          Prefix := "LOG"
          Driver := Driver.std
            (newStdDriver Writer.stdout "[LOG] " (Ldate ||| Ltime ||| LUTC : Nat)) } ∧
      (∀ (mask : Nat), mask ∈ [Ldate, Ltime, Lmicroseconds, Llongfile, Lshortfile, LUTC,
          Lmsgprefix] →
        (flagHas ((Ldate ||| Ltime ||| LUTC : Nat) : Int) mask = true ↔
          mask = Ldate ∨ mask = Ltime ∨ mask = LUTC)) ∧
      (∀ (S : Severity) (stack : List Frame) (m : String) (now : Time),
        ((NewLogger []).call S stack m).map PrintlnCall.driver = [(NewLogger []).Driver] ∧
        ∃ w, ((NewLogger []).call S stack m).map (PrintlnCall.perform now) =
            [Outcome.wrote w] ∧
          w.out = Writer.stdout ∧ w.data.data.getLast? = some '\n') ∧
      (∀ dir : String, exampleMain dir =
        [{ driver := (NewLogger []).Driver, v := "[ main.go:8 ] [DEBUG] Debug message" },
         { driver := (NewLogger []).Driver, v := "[ main.go:9 ] [INFO] Info message" },
         { driver := (NewLogger []).Driver, v := "[ main.go:10 ] [WARNING] Warn message" },
         { driver := (NewLogger []).Driver, v := "[ main.go:11 ] [ERROR] Error message" }]) := by
  refine ⟨rfl, by decide, ?_, ?_⟩
  · intro S stack m now
    obtain ⟨v, hv⟩ := call_default S stack m
    refine ⟨by rw [hv]; rfl, ?_⟩
    rw [hv]
    refine ⟨_, congrArg (fun o => [o]) (println_default now (Frame.mk loggerGo 81) v), rfl, ?_⟩
    exact getLast_sprintln _
  · intro dir
    have hb : filepathBase (exampleMainGo dir) = "main.go" :=
      filepathBase_join dir "main.go" (by decide) (by decide)
    have h : ∀ (S : Severity) (line : Nat) (m : String),
        (NewLogger []).call S [Frame.mk (exampleMainGo dir) line] m =
          [{ driver := (NewLogger []).Driver, v := sprintfLine "main.go" line S.tag m }] := by
      intro S line m
      rw [call_cons, if_pos (by cases S <;> decide), hb]
    have hD := h Severity.Debug 8 "Debug message"
    have hI := h Severity.Info 9 "Info message"
    have hW := h Severity.Warn 10 "Warn message"
    have hE := h Severity.Error 11 "Error message"
    simp only [logger.call] at hD hI hW hE
    simp only [exampleMain, hD, hI, hW, hE]
    rfl

/-- C4: `NewLogger` applied to any sequence of options is the left fold of the options over
the default configuration, each option receiving the result of the one before it; with no
option it is the default configuration itself. -/
theorem newLogger_is_left_fold :
    (∀ opts : List LoggerOption, NewLogger opts = configFold defaultLogger opts) ∧
      (∀ (opts : List LoggerOption) (o : LoggerOption),
        NewLogger (opts ++ [o]) = o (NewLogger opts)) ∧
      NewLogger [] = defaultLogger := by
  refine ⟨fun opts => applyOpts_eq_foldl opts defaultLogger, ?_, rfl⟩
  intro opts o
  simp only [NewLogger, applyOpts_eq_foldl, List.foldl_append, List.foldl_cons, List.foldl_nil]

/-- C5: `WithStdDriver w fl` applied to a configuration `c` installs a standard driver on `w`
with flags `fl` and line prefix `[` ++ `c.Prefix` ++ `] `, and keeps threshold and prefix;
after an option that sets the prefix to `P` the driver prefix is `[P] `, while in the
opposite order it is built from the old prefix. -/
theorem withStdDriver_uses_current_prefix :
    (∀ (c : logger) (w : Writer) (fl : Int),
      WithStdDriver w fl c =
        { Verbosity := c.Verbosity
          Prefix := c.Prefix
          Driver := Driver.std
            { Logger := { out := w, linePrefix := "[" ++ c.Prefix ++ "] ", flag := fl } } }) ∧
    (∀ (c : logger) (w : Writer) (fl : Int) (P : String),
      (applyOpts [fun l => { l with Prefix := P }, WithStdDriver w fl] c).Driver =
          Driver.std { Logger := { out := w, linePrefix := "[" ++ P ++ "] ", flag := fl } } ∧
        (applyOpts [WithStdDriver w fl, fun l => { l with Prefix := P }] c).Driver =
          Driver.std
            { Logger := { out := w, linePrefix := "[" ++ c.Prefix ++ "] ", flag := fl } }) := by
  exact ⟨fun _ _ _ => rfl, fun _ _ _ _ => ⟨rfl, rfl⟩⟩

/-- C10, as stated, fails: `WithStdDriver` accepts a nil writer, the gate then still passes
and `Error` makes its `Println` call, but that call panics and writes no line. -/
theorem nil_writer_emits_no_line :
    (NewLogger [WithStdDriver Writer.nil 0]).Verbosity = VerbosityDebug ∧
      ((NewLogger [WithStdDriver Writer.nil 0]).call Severity.Error
          [Frame.mk "/home/dev/app/main.go" 15] "disk full").map (PrintlnCall.perform sampleTime) =
        [Outcome.panic] ∧
      ¬ ∃ w, ((NewLogger [WithStdDriver Writer.nil 0]).call Severity.Error
          [Frame.mk "/home/dev/app/main.go" 15] "disk full").map (PrintlnCall.perform sampleTime) =
        [Outcome.wrote w] := by
  have h : ((NewLogger [WithStdDriver Writer.nil 0]).call Severity.Error
      [Frame.mk "/home/dev/app/main.go" 15] "disk full").map (PrintlnCall.perform sampleTime) =
      [Outcome.panic] := by decide
  refine ⟨rfl, h, ?_⟩
  rintro ⟨w, hw⟩
  rw [h] at hw
  simp at hw

/-- C10, amended: a logger built by `NewLogger` from any sequence of `WithStdDriver` options
has threshold `VerbosityDebug`, prefix `LOG` and the standard driver with line prefix
`[LOG] ` on the writer and flags of the last option (standard output and date, time, UTC
without options); the gate never filters on it: each of the four severity methods makes
exactly one `Println` call on that driver, and the call writes exactly one line, header
then the formatted string then a newline, unless the writer is nil, when it panics. -/
theorem public_construction_invariant (ws : List (Writer × Int)) :
    (NewLogger (ws.map (fun a => WithStdDriver a.1 a.2))).Verbosity = VerbosityDebug ∧
      (NewLogger (ws.map (fun a => WithStdDriver a.1 a.2))).Prefix = "LOG" ∧
      (NewLogger (ws.map (fun a => WithStdDriver a.1 a.2))).Driver =
        Driver.std { Logger := { out := (finalSink ws).1
                                 linePrefix := "[LOG] "
                                 flag := (finalSink ws).2 } } ∧
      (∀ (S : Severity) (stack : List Frame) (m : String),
        ((NewLogger (ws.map (fun a => WithStdDriver a.1 a.2))).call S stack m).map
            PrintlnCall.driver =
          [(NewLogger (ws.map (fun a => WithStdDriver a.1 a.2))).Driver]) ∧
      (∀ (S : Severity) (stack : List Frame) (m : String) (now : Time),
        ((NewLogger (ws.map (fun a => WithStdDriver a.1 a.2))).call S stack m).map
            (PrintlnCall.perform now) =
          [if (finalSink ws).1 = Writer.nil then Outcome.panic
           else Outcome.wrote
             { out := (finalSink ws).1
               data := formatHeader "[LOG] " (finalSink ws).2 now loggerGo 81
                 ++ sprintfLine (filepathBase (runtimeCaller 0 stack).1)
                      (runtimeCaller 0 stack).2.1 S.tag m
                 ++ "\n" }]) := by
  obtain ⟨hv, hp, hd⟩ := applyOpts_withStdDriver ws defaultLogger
  have hdrv : (NewLogger (ws.map (fun a => WithStdDriver a.1 a.2))).Driver =
      Driver.std { Logger := { out := (finalSink ws).1
                               linePrefix := "[LOG] "
                               flag := (finalSink ws).2 } } := by
    unfold NewLogger finalSink
    rw [hd]
    cases ws.getLast? with
    | none => rfl
    | some a => rfl
  have hgate : ∀ S : Severity,
      requiredLevel S ≤ (NewLogger (ws.map (fun a => WithStdDriver a.1 a.2))).Verbosity := by
    intro S
    unfold NewLogger
    rw [hv]
    cases S <;> decide
  refine ⟨hv, hp, hdrv, ?_, ?_⟩
  · intro S stack m
    rw [map_driver_call, if_pos (hgate S)]
  · intro S stack m now
    rw [call_eq, if_pos (hgate S), hdrv]
    simp only [List.map_cons, List.map_nil, PrintlnCall.perform]
    rw [println_outcome]

/-! ## The full line of the default logger -/

/-- C7, as stated, fails: at 2021/04/20 00:32:27 UTC, `Info` called from `main.go` line 15 on
the default logger writes the prefix `[LOG] ` before the timestamp, not after it. -/
theorem default_line_not_timestamp_first :
    ((NewLogger []).call Severity.Info [Frame.mk "/home/dev/app/main.go" 15]
          "Hello, this is a message.").map (PrintlnCall.perform sampleTime) =
        [Outcome.wrote { out := Writer.stdout
                         data := "[LOG] 2021/04/20 00:32:27 [ main.go:15 ] [INFO] Hello, this is a message.\n" }] ∧
      ((NewLogger []).call Severity.Info [Frame.mk "/home/dev/app/main.go" 15]
          "Hello, this is a message.").map (PrintlnCall.perform sampleTime) ≠
        [Outcome.wrote { out := Writer.stdout
                         data := "2021/04/20 00:32:27 [LOG] [ main.go:15 ] [INFO] Hello, this is a message.\n" }] := by
  decide

/-- C7, amended: every line the default logger writes to standard output is the driver
prefix `[LOG] `, then the UTC date and time, then the string `[ <file>:<line> ] [<TAG>]
<message>` built by the facade, then a newline. -/
theorem default_line_layout (S : Severity) (fr : Frame) (rest : List Frame) (m : String)
    (now : Time) :
    ((NewLogger []).call S (fr :: rest) m).map (PrintlnCall.perform now) =
      [Outcome.wrote { out := Writer.stdout
                       data := "[LOG] " ++ dateStamp now.utc ++ " " ++ timeStamp now.utc ++ " "
                ++ ("[ " ++ filepathBase fr.file ++ ":" ++ Nat.repr fr.line ++ " ] ["
                  ++ S.tag ++ "] " ++ m) ++ "\n" }] := by
  rw [call_cons, if_pos (by cases S <;> decide)]
  simp only [List.map_cons, List.map_nil, PrintlnCall.perform]
  show [(newStdDriver Writer.stdout "[LOG] "
    (Ldate ||| Ltime ||| LUTC : Nat)).Logger.Println now _ _] = _
  rw [println_default]
  simp only [sprintfLine, String.append_assoc]
  rfl

/-- C9 at the example of the `Prefix` field's documentation: `Info` called from `main.go`
line 15 on the default logger (prefix `LOG`) hands the driver a string without the prefix,
and the line written has the prefix before the timestamp, not between location and tag. -/
theorem prefix_not_between_location_and_tag :
    (NewLogger []).Prefix = "LOG" ∧
      (NewLogger []).Info [Frame.mk "/home/dev/app/main.go" 15] "Hello, this is a message." =
        [{ driver := (NewLogger []).Driver
           v := "[ main.go:15 ] [INFO] Hello, this is a message." }] ∧
      ((NewLogger []).Info [Frame.mk "/home/dev/app/main.go" 15]
          "Hello, this is a message.").map (PrintlnCall.perform sampleTime) ≠
        [Outcome.wrote { out := Writer.stdout
                         data := "2021/04/20 00:32:27 main.go:15 [LOG] [INFO] Hello, this is a message.\n" }] := by
  decide

end GoLogger
